import Mathlib

/-!
Shallow embedding of the entitlement lifecycle engine of the vpn-api service
(src/main.rs, src/models.rs).

Conventions used throughout:
* Timestamps are integers measured in days, so that `NOW() + d * INTERVAL '1 day'`
  becomes `now + d` and `chrono::Duration::days d` becomes addition of `d`.
* The users table is a `List User` of rows; map-style SQL `UPDATE ... WHERE`
  statements become `List.map` with a pointwise conditional update, and
  `SELECT ... WHERE` becomes `List.filter`.
* Each outbound HTTP call to the provisioning service (Remnawave) is modelled
  by an explicit `AdapterResp` input (transport error / non-2xx / success);
  the sweep handlers additionally expose the list of remote revoke calls they
  perform, so that claims about revocation can be stated.  Database queries are
  assumed to succeed except where the Rust code visibly handles their failure
  (the promo usage lookup of validate_promo, modelled by an explicit flag).
* Rows are restricted to the columns the verified operations read or write;
  the game/statistics columns of `models.rs` are never touched by these
  handlers and are omitted.
-/

namespace VpnApi

/-- Outcome kinds of an actix-web handler, mirroring the `HttpResponse`
constructors the source uses (`Ok`, `BadRequest`, `Conflict`, `NotFound`,
`InternalServerError`), each with its body text. -/
inductive Resp where
  | ok (msg : String)
  | badRequest (msg : String)
  | conflict (msg : String)
  | notFound (msg : String)
  | internalError (msg : String)
deriving DecidableEq

/-- True exactly for the `Conflict` (HTTP 409) response kind. -/
def Resp.isConflict : Resp → Bool
  | .conflict _ => true
  | _ => false

/-- A row of the `users` table (`models.rs`, struct `User`), restricted to the
columns read or written by the verified handlers.  `is_active` is the status
code: 0 = INACTIVE, 1 = ACTIVE, 2 = GRACE. -/
structure User where
  telegram_id : Int
  subscription_end : Int
  is_active : Int
  referrals : Option (List Int)
  referral_id : Option Int
  plan : String
  device_limit : Int
  is_pro : Bool
  auto_renew : Bool
  payment_method_id : Option String
  auto_renew_last_attempt : Option Int
  auto_renew_fail_count : Int
deriving DecidableEq

/-- `SELECT ... FROM users WHERE telegram_id = $1` with `fetch_one` /
`fetch_optional`: the first row with the given key. -/
def findUser (db : List User) (tid : Int) : Option User :=
  db.find? (fun u => u.telegram_id == tid)

/-- Parent pointer of an account: its stored `referral_id`. -/
def parentOf (db : List User) (tid : Int) : Option Int :=
  (findUser db tid).bind (fun u => u.referral_id)

/-! ## Entitlement state machine: extend_subscription (main.rs lines 165-322) -/

/-- `device_limit` derived from the plan tag (main.rs lines 191-195). -/
def device_limit_for (plan : String) : Int :=
  if plan == "base" || plan == "bsbase" then 2
  else if plan == "family" || plan == "bsfamily" then 10
  else 2

/-- `traffic_limit` derived from the plan tag (main.rs lines 197-202). -/
def traffic_limit_for (plan : String) : Int :=
  if plan == "base" || plan == "bsbase" then 0
  else if plan == "family" || plan == "bsfamily" then 0
  else if plan == "trial" then 26843545600
  else 0

/-- Remote `tag` derived from the plan tag (main.rs lines 204-210). -/
def tag_for (plan : String) : String :=
  if plan == "base" || plan == "bsbase" then "PAID"
  else if plan == "family" || plan == "bsfamily" then "PAID"
  else if plan == "trial" then "TRIAL"
  else if plan == "free" then "FREE"
  else "UNKNOWN"

/-- Squad list sent to the remote service (main.rs lines 213-220). -/
def squads_for (plan : String) (is_pro : Bool) : List String :=
  let base := ["514a5e22-c599-4f72-81a5-e646f0391db7"]
  let withBs := if plan.startsWith "bs" then base ++ ["9e60626e-32a8-4d91-a2f8-2aa3fecf7b23"] else base
  if is_pro then withBs ++ ["b6a4e86b-b769-4c86-a2d9-f31bbe645029"] else withBs

/-- `plan_changed = user.plan != plan && plan != "trial" && plan != "free"`
(main.rs line 224). -/
def plan_changed_for (stored plan : String) : Bool :=
  stored != plan && plan != "trial" && plan != "free"

/-- Result of one blocking call to the provisioning service: the reqwest
send either fails in transport, or returns a response whose status is or
is not a success. -/
inductive AdapterResp where
  | transportError
  | reply (success : Bool)
deriving DecidableEq

/-- Body of the PATCH the extend handler sends to the provisioning service
(main.rs lines 233-252). -/
structure UpdateReq where
  status_active : Bool
  traffic_limit : Int
  tag : String
  squads : List String
  expire_at : Int
  device_limit : Int
deriving DecidableEq

/-- Observable outcome of `extend_subscription`: the HTTP response, the
remote update request that was sent (if any), and the user row after the
call. -/
structure ExtendResult where
  resp : Resp
  request : Option UpdateReq
  user : Option User
deriving DecidableEq

/-- `extend_subscription` (main.rs lines 165-322).  `stored` is the result of
the initial `SELECT * FROM users WHERE telegram_id = $1` (`none` = the
`fetch_one` error path, reported as NotFound).  The adapter is consulted after
computing the plan-derived limits; only on a success reply does the handler
run the UPDATE: `subscription_end = NOW() + days` when the plan changed, else
`GREATEST(subscription_end, NOW()) + days`, and in both branches
`is_active = 1, plan = $2`. -/
def extend_subscription (stored : Option User) (days : Nat) (plan : String)
    (now : Int) (adapter : AdapterResp) : ExtendResult :=
  match stored with
  | none => { resp := .notFound "User not found", request := none, user := none }
  | some u =>
    let pc := plan_changed_for u.plan plan
    let effective_start := if pc then now else max u.subscription_end now
    let req : UpdateReq :=
      { status_active := true,
        traffic_limit := traffic_limit_for plan,
        tag := tag_for plan,
        squads := squads_for plan u.is_pro,
        expire_at := effective_start + (days : Int),
        device_limit := device_limit_for plan }
    match adapter with
    | .transportError =>
      { resp := .internalError "Failed to call remnawave API",
        request := some req, user := some u }
    | .reply false =>
      { resp := .internalError "Remnawave API error",
        request := some req, user := some u }
    | .reply true =>
      let newEnd := if pc then now + (days : Int) else max u.subscription_end now + (days : Int)
      { resp := .ok "extended",
        request := some req,
        user := some { u with subscription_end := newEnd, is_active := 1, plan := plan } }

/-! ## Expiry sweeper (main.rs lines 516-641) -/

/-- Result of a sweep handler: the rows returned to the caller, the table
after the transaction, and the accounts for which a remote revoke call was
issued during the sweep. -/
structure SweepResult where
  returned : List User
  db : List User
  revoke_calls : List Int
deriving DecidableEq

/-- Selection predicate of the Advance-to-Grace sweep (main.rs lines 532-543):
`is_active = 1 AND subscription_end BETWEEN NOW() AND $1` — SQL BETWEEN is
inclusive at both ends. -/
def grace_matches (now threshold : Int) (u : User) : Bool :=
  u.is_active == 1 && decide (now ≤ u.subscription_end) && decide (u.subscription_end ≤ threshold)

/-- The Advance-to-Grace selection as the spec words it (§4.2): status ACTIVE
and `subscription_end ∈ [now, now+horizon)`, a half-open interval.  Stated
only to compare with the source predicate `grace_matches`. -/
def grace_matches_spec (now horizon : Int) (u : User) : Bool :=
  u.is_active == 1 && decide (now ≤ u.subscription_end) && decide (u.subscription_end < now + horizon)

/-- `get_expiring_users` (main.rs lines 516-583): in one transaction, select
the rows matching `grace_matches`, set `is_active = 2` for the selected
telegram ids, commit, and return the selected rows.  The handler performs no
outbound HTTP request, hence `revoke_calls = []`.  The source's
`ORDER BY subscription_end` is dropped: every claim about this handler is
about the set of affected rows, never their order. -/
def get_expiring_users (db : List User) (now horizon : Int) : SweepResult :=
  let sel := db.filter (grace_matches now (now + horizon))
  let ids := sel.map (fun u => u.telegram_id)
  { returned := sel,
    db := db.map (fun u => if u.telegram_id ∈ ids then { u with is_active := 2 } else u),
    revoke_calls := [] }

/-- Selection predicate of the Advance-to-Inactive sweep (main.rs lines
592-601): `is_active = 2 AND subscription_end < NOW()`. -/
def expired_matches (now : Int) (u : User) : Bool :=
  u.is_active == 2 && decide (u.subscription_end < now)

/-- `get_expired_users` (main.rs lines 585-641): in one transaction, select
the rows matching `expired_matches`, set `is_active = 0` for the selected
telegram ids, commit, and return the selected rows.  The handler body contains
no call to the provisioning service at all — no revoke is issued for any
selected row — hence `revoke_calls = []`. -/
def get_expired_users (db : List User) (now : Int) : SweepResult :=
  let sel := db.filter (expired_matches now)
  let ids := sel.map (fun u => u.telegram_id)
  { returned := sel,
    db := db.map (fun u => if u.telegram_id ∈ ids then { u with is_active := 0 } else u),
    revoke_calls := [] }

/-! ## Auto-renewal orchestrator: record_auto_renew_attempt (main.rs lines 1102-1143) -/

/-- `record_auto_renew_attempt` applied to the addressed row.  Success:
`auto_renew_fail_count = 0, auto_renew_last_attempt = NOW()`.  Failure:
`auto_renew_fail_count = auto_renew_fail_count + 1, auto_renew_last_attempt
= NOW(), auto_renew = CASE WHEN auto_renew_fail_count + 1 >= 3 THEN FALSE
ELSE auto_renew END`. -/
def record_auto_renew_attempt (u : User) (success : Bool) (now : Int) : User :=
  if success then
    { u with auto_renew_fail_count := 0, auto_renew_last_attempt := some now }
  else
    { u with
      auto_renew_fail_count := u.auto_renew_fail_count + 1,
      auto_renew_last_attempt := some now,
      auto_renew := if 3 ≤ u.auto_renew_fail_count + 1 then false else u.auto_renew }

/-! ## Referral graph manager: add_referral (main.rs lines 325-402) -/

/-- `UPDATE users SET referrals = array_append(referrals, $1) WHERE
telegram_id = $2`; Postgres array_append on a NULL array yields the singleton
array, hence the `getD []`. -/
def appendReferral (db : List User) (tid child : Int) : List User :=
  db.map (fun u =>
    if u.telegram_id = tid then { u with referrals := some (u.referrals.getD [] ++ [child]) } else u)

/-- `UPDATE users SET referral_id = $1 WHERE telegram_id = $2`. -/
def setReferralId (db : List User) (tid parent : Int) : List User :=
  db.map (fun u =>
    if u.telegram_id = tid then { u with referral_id := some parent } else u)

/-- `add_referral` (main.rs lines 325-402).  Checks, in source order: the
invited account exists (its `fetch_one` error path is reported as
BadRequest); its `referral_id` is not already set; the referrer row is
readable; the invited id is not already in the referrer's `referrals` array
(skipped when the array is NULL, which `getD []` reproduces).  On success the
handler first appends to the referrer's array, then sets the invited
account's `referral_id`. -/
def add_referral (db : List User) (referral_id referred_telegram_id : Int) : Resp × List User :=
  match findUser db referred_telegram_id with
  | none => (.badRequest "This user has already been invited", db)
  | some cu =>
    if cu.referral_id.isSome then
      (.badRequest "This user has already been invited by someone else", db)
    else
      match findUser db referral_id with
      | none => (.badRequest "Error collecting referrals", db)
      | some pu =>
        if referred_telegram_id ∈ pu.referrals.getD [] then
          (.badRequest "This referral is already added", db)
        else
          (.ok "Referral added successfully and referral_id updated",
           setReferralId (appendReferral db referral_id referred_telegram_id)
             referred_telegram_id referral_id)

/-- A batch of AddReferral calls applied in order, each against the table the
previous call left behind. -/
def applyReferralOps (db : List User) (ops : List (Int × Int)) : List User :=
  ops.foldl (fun d op => (add_referral d op.1 op.2).2) db

/-! ## Promo redemption ledger (main.rs lines 808-949) -/

/-- A row of the `promo_codes` table (`models.rs`, struct `PromoCode`). -/
structure PromoCode where
  id : Int
  code : String
  discount_percent : Int
  applicable_tariffs : List String
  max_uses : Int
  current_uses : Int
  is_active : Bool
deriving DecidableEq

/-- The promo ledger: the `promo_codes` table and the `promo_usages` table,
the latter as a list of `(promo_code_id, telegram_id)` rows. -/
structure PromoDb where
  codes : List PromoCode
  usages : List (Int × Int)
deriving DecidableEq

/-- `create_promo` (main.rs lines 808-824) inserts a row carrying the given
code, discount, tariff list and `max_uses`.  Modelled from the spec: the
INSERT names no `current_uses` or `is_active` value, so those come from the
table defaults; the schema/migrations are not under src/, and the spec's
PromoCode lifecycle (§3: created active by administrative action,
`current_uses ≤ max_uses` from zero uses) fixes them as
`current_uses = 0, is_active = true`.  `nextId` is the fresh serial id the
database assigns. -/
def create_promo (db : PromoDb) (nextId : Int) (code : String) (discount : Int)
    (tariffs : List String) (maxUses : Int) : PromoDb :=
  { db with codes := db.codes ++
      [{ id := nextId, code := code, discount_percent := discount,
         applicable_tariffs := tariffs, max_uses := maxUses,
         current_uses := 0, is_active := true }] }

/-- `deactivate_promo` (main.rs lines 839-857): `UPDATE promo_codes SET
is_active = false WHERE code = $1`. -/
def deactivate_promo (db : PromoDb) (code : String) : PromoDb :=
  { db with codes := db.codes.map (fun p => if p.code = code then { p with is_active := false } else p) }

/-- `use_promo` (main.rs lines 901-949): one transaction that locates an
active row by code, inserts a `(promo_code_id, telegram_id)` usage row, and
increments `current_uses`.  Modelled from the spec for the schema part: the
uniqueness constraint over `(promo_code_id, telegram_id)` lives in the
migrations (not under src/); spec §3 states at most one row per pair, so a
duplicate insert fails, which the handler turns into rollback plus
InternalServerError.  No check of `max_uses` appears anywhere in the
handler. -/
def use_promo (db : PromoDb) (code : String) (tg : Int) : Resp × PromoDb :=
  match db.codes.find? (fun p => p.code == code && p.is_active) with
  | none => (.notFound "Promo code not found or inactive", db)
  | some p =>
    if (p.id, tg) ∈ db.usages then
      (.internalError "Failed to record promo usage", db)
    else
      (.ok "ok",
       { codes := db.codes.map (fun q => if q.id = p.id then { q with current_uses := q.current_uses + 1 } else q),
         usages := db.usages ++ [(p.id, tg)] })

/-- Outcome of `validate_promo`: the JSON verdicts (reasons abbreviate the
Russian strings of the source: not found / deactivated / exhausted / not
applicable / already used) or the InternalServerError path. -/
inductive ValidateResult where
  | invalid (reason : String)
  | valid (discount_percent : Int) (applicable_tariffs : List String)
  | internalError (msg : String)
deriving DecidableEq

/-- `validate_promo` (main.rs lines 859-899).  Ordered, short-circuiting
checks; the two storage reads are given explicit failure flags because the
source handles them differently: a failing code lookup is reported as
InternalServerError, while the usage-row lookup ends in `.unwrap_or(None)`,
which silently converts a storage error into `None` (= no prior usage). -/
def validate_promo (db : PromoDb) (code tariff : String) (tg : Int)
    (codeLookupFails usageLookupFails : Bool) : ValidateResult :=
  if codeLookupFails then .internalError "db error" else
  match db.codes.find? (fun p => p.code == code) with
  | none => .invalid "promo not found"
  | some p =>
    if !p.is_active then .invalid "promo deactivated"
    else if p.max_uses ≤ p.current_uses then .invalid "promo exhausted"
    else if tariff != "" && !(p.applicable_tariffs.contains tariff) then
      .invalid "promo not applicable to this tariff"
    else
      let already_used : Option (Int × Int) :=
        if usageLookupFails then none
        else db.usages.find? (fun r => r.1 == p.id && r.2 == tg)
      match already_used with
      | some _ => .invalid "promo already used"
      | none => .valid p.discount_percent p.applicable_tariffs

/-- The data-model invariant of spec §3: every promo code satisfies
`current_uses ≤ max_uses`. -/
def promoUsesBounded (db : PromoDb) : Prop :=
  ∀ p ∈ db.codes, p.current_uses ≤ p.max_uses

/-- Number of usage rows recorded for a given promo code id. -/
def usageCount (db : PromoDb) (pid : Int) : Nat :=
  (db.usages.filter (fun r => r.1 == pid)).length

/-- Ledger consistency of spec §4.5: each code's `current_uses` equals the
number of its usage rows. -/
def countsConsistent (db : PromoDb) : Prop :=
  ∀ p ∈ db.codes, p.current_uses = (usageCount db p.id : Int)

/-! ## Concrete rows and tables used by counterexamples and witnesses -/

/-- A baseline user row; concrete instances below adjust single fields. -/
def userBase : User :=
  { telegram_id := 1, subscription_end := 0, is_active := 0, referrals := none,
    referral_id := none, plan := "base", device_limit := 2, is_pro := false,
    auto_renew := false, payment_method_id := none,
    auto_renew_last_attempt := none, auto_renew_fail_count := 0 }

/-- A GRACE row already past its expiry, for the Advance-to-Inactive sweep. -/
def graceExpiredUser : User := { userBase with is_active := 2 }

/-- Table holding only `graceExpiredUser`. -/
def expiredDb : List User := [graceExpiredUser]

/-- An ACTIVE row whose expiry sits exactly on `now + horizon`. -/
def boundaryUser : User := { userBase with is_active := 1, subscription_end := 5 }

/-- Table holding only `boundaryUser`. -/
def boundaryDb : List User := [boundaryUser]

/-- A user with auto-renew enabled and two recorded failures. -/
def twoFailUser : User := { userBase with auto_renew := true, auto_renew_fail_count := 2 }

/-- Referrer and an already-invited account, for the AddReferral rejections. -/
def invitedDb : List User :=
  [{ userBase with telegram_id := 10 },
   { userBase with telegram_id := 20, referral_id := some 99 }]

/-- A single account with no parent and no referrals, for the self-referral
counterexample. -/
def loneDb : List User := [userBase]

/-- An account whose parent pointer is already set to 7. -/
def parentedDb : List User := [{ userBase with referral_id := some 7 }]

/-- Ledger after creating the code SALE with `max_uses = 1`. -/
def saleDb : PromoDb := create_promo { codes := [], usages := [] } 1 "SALE" 10 [] 1

/-- First redemption of SALE, by account 100. -/
def saleStep1 : Resp × PromoDb := use_promo saleDb "SALE" 100

/-- Second redemption of SALE, by the distinct account 200. -/
def saleStep2 : Resp × PromoDb := use_promo saleStep1.2 "SALE" 200

/-- A live promo code applicable to the base tariff. -/
def promoX : PromoCode :=
  { id := 1, code := "X", discount_percent := 15, applicable_tariffs := ["base"],
    max_uses := 5, current_uses := 0, is_active := true }

/-- Ledger holding only `promoX`, with no usage rows. -/
def promoXDb : PromoDb := { codes := [promoX], usages := [] }

/-! ## C3, C4, C5: the Extend transition -/

/-- C3: for every same-plan Extend (the stored plan equals the requested plan,
or the requested plan is trial or free) on an existing account that succeeds,
the new `subscription_end` equals `max (old subscription_end) now + days`, and
`subscription_end` does not decrease. -/
theorem extend_same_plan (u : User) (days : Nat) (plan : String) (now : Int)
    (h : plan_changed_for u.plan plan = false) :
    (extend_subscription (some u) days plan now (.reply true)).user.map (fun v => v.subscription_end)
      = some (max u.subscription_end now + (days : Int))
    ∧ u.subscription_end ≤ max u.subscription_end now + (days : Int) := by
  constructor
  · simp [extend_subscription, h]
  · exact (le_max_left u.subscription_end now).trans
      (le_add_of_nonneg_right (Int.ofNat_nonneg days))

/-- Witness for C3: extending the base plan on a base-plan account whose
subscription ended at time 0, at time 5 for 3 days, yields end 8. -/
theorem extend_same_plan_witness :
    plan_changed_for userBase.plan "base" = false
    ∧ ((extend_subscription (some userBase) 3 "base" 5 (.reply true)).user.map (fun v => v.subscription_end)
        = some (max userBase.subscription_end 5 + ((3 : Nat) : Int))
      ∧ userBase.subscription_end ≤ max userBase.subscription_end 5 + ((3 : Nat) : Int)) :=
  ⟨by decide, extend_same_plan userBase 3 "base" 5 (by decide)⟩

/-- C4: for every Extend where `plan_changed` holds and the call succeeds, the
new `subscription_end` is `now + days` irrespective of the old value, the
status becomes ACTIVE (`is_active = 1`), and the plan is set to the requested
plan. -/
theorem extend_plan_change (u : User) (days : Nat) (plan : String) (now : Int)
    (h : plan_changed_for u.plan plan = true) :
    (extend_subscription (some u) days plan now (.reply true)).user.map (fun v => v.subscription_end)
      = some (now + (days : Int))
    ∧ (extend_subscription (some u) days plan now (.reply true)).user.map (fun v => v.is_active)
      = some 1
    ∧ (extend_subscription (some u) days plan now (.reply true)).user.map (fun v => v.plan)
      = some plan := by
  refine ⟨?_, ?_, ?_⟩ <;> simp [extend_subscription, h]

/-- Witness for C4: switching a base-plan account to family at time 5 for 30
days gives end 35, ACTIVE status and the new plan. -/
theorem extend_plan_change_witness :
    plan_changed_for userBase.plan "family" = true
    ∧ ((extend_subscription (some userBase) 30 "family" 5 (.reply true)).user.map (fun v => v.subscription_end)
        = some (5 + ((30 : Nat) : Int))
      ∧ (extend_subscription (some userBase) 30 "family" 5 (.reply true)).user.map (fun v => v.is_active)
        = some 1
      ∧ (extend_subscription (some userBase) 30 "family" 5 (.reply true)).user.map (fun v => v.plan)
        = some "family") :=
  ⟨by decide, extend_plan_change userBase 30 "family" 5 (by decide)⟩

/-- C5: for every Extend in which the provisioning call fails — transport
error or non-success response — the transition aborts with an internal error
and the stored row is unchanged, so `subscription_end`, `is_active` and
`plan` keep their prior values. -/
theorem extend_adapter_failure (u : User) (days : Nat) (plan : String) (now : Int) :
    ((extend_subscription (some u) days plan now .transportError).user = some u
      ∧ (extend_subscription (some u) days plan now .transportError).resp
          = .internalError "Failed to call remnawave API")
    ∧ ((extend_subscription (some u) days plan now (.reply false)).user = some u
      ∧ (extend_subscription (some u) days plan now (.reply false)).resp
          = .internalError "Remnawave API error") := by
  refine ⟨⟨?_, ?_⟩, ?_, ?_⟩ <;> simp [extend_subscription]

/-! ## C7: RecordAttempt and the circuit breaker -/

/-- C7: a successful RecordAttempt zeroes the failure count and stamps the
attempt time without touching `auto_renew`; a failed one increments the
count and stamps the time; with auto-renew on and at most two prior
failures, the breaker opens exactly when the incremented count reaches 3;
three consecutive failures from a clean counter force `auto_renew = false`. -/
theorem record_attempt_rules (u : User) (now : Int) :
    ((record_auto_renew_attempt u true now).auto_renew_fail_count = 0
      ∧ (record_auto_renew_attempt u true now).auto_renew_last_attempt = some now
      ∧ (record_auto_renew_attempt u true now).auto_renew = u.auto_renew)
    ∧ ((record_auto_renew_attempt u false now).auto_renew_fail_count
        = u.auto_renew_fail_count + 1
      ∧ (record_auto_renew_attempt u false now).auto_renew_last_attempt = some now)
    ∧ (u.auto_renew = true → u.auto_renew_fail_count ≤ 2 →
        ((record_auto_renew_attempt u false now).auto_renew = false
          ↔ u.auto_renew_fail_count + 1 = 3))
    ∧ (u.auto_renew = true → u.auto_renew_fail_count = 0 → ∀ n2 n3 : Int,
        (record_auto_renew_attempt
          (record_auto_renew_attempt (record_auto_renew_attempt u false now) false n2)
          false n3).auto_renew = false) := by
  refine ⟨⟨?_, ?_, ?_⟩, ⟨?_, ?_⟩, ?_, ?_⟩
  · simp [record_auto_renew_attempt]
  · simp [record_auto_renew_attempt]
  · simp [record_auto_renew_attempt]
  · simp [record_auto_renew_attempt]
  · simp [record_auto_renew_attempt]
  · intro ha hle
    by_cases h3 : 3 ≤ u.auto_renew_fail_count + 1
    · simp only [record_auto_renew_attempt, if_neg Bool.false_ne_true, if_pos h3]
      constructor
      · intro _; omega
      · intro _; trivial
    · simp only [record_auto_renew_attempt, if_neg Bool.false_ne_true, if_neg h3, ha]
      constructor
      · intro hfalse; exact absurd hfalse (by simp)
      · intro he; omega
  · intro ha h0 n2 n3
    simp [record_auto_renew_attempt, h0, ha]

/-- Witness for C7: a third consecutive failure on an enabled account with
two recorded failures switches auto-renew off. -/
theorem record_attempt_rules_witness :
    (record_auto_renew_attempt twoFailUser false 5).auto_renew = false :=
  ((record_attempt_rules twoFailUser 5).2.2.1 (by decide) (by decide)).2 (by decide)

/-! ## C1: the Advance-to-Inactive sweep -/

/-- C1 counterexample: on a table holding one GRACE row already expired, the
sweep selects that row, performs zero remote revoke calls — refuting that a
Revoke is invoked for each selected entitlement — and still commits the row
to INACTIVE, so no revoke failure can ever roll the batch back. -/
theorem expired_sweep_counterexample :
    (get_expired_users expiredDb 10).returned.map (fun u => u.telegram_id) = [1]
    ∧ (get_expired_users expiredDb 10).revoke_calls = []
    ∧ (get_expired_users expiredDb 10).db.map (fun u => u.is_active) = [0] := by
  decide

/-- C1 amended: the sweep selects exactly the rows with status GRACE and
`subscription_end < now`, bulk-updates exactly those to INACTIVE, leaves every
other row untouched, returns the selected rows — and invokes no remote
Revoke at all. -/
theorem expired_sweep_amended (db : List User) (now : Int) :
    (∀ u, u ∈ (get_expired_users db now).returned ↔
        u ∈ db ∧ u.is_active = 2 ∧ u.subscription_end < now)
    ∧ (∀ u ∈ (get_expired_users db now).returned,
        { u with is_active := 0 } ∈ (get_expired_users db now).db)
    ∧ (∀ u ∈ db,
        u.telegram_id ∉ (get_expired_users db now).returned.map (fun v => v.telegram_id) →
        u ∈ (get_expired_users db now).db)
    ∧ (get_expired_users db now).revoke_calls = [] := by
  refine ⟨?_, ?_, ?_, rfl⟩
  · intro u
    simp [get_expired_users, expired_matches, List.mem_filter, and_assoc]
  · intro u hu
    have hmem : u ∈ db := List.mem_of_mem_filter hu
    have hid : u.telegram_id ∈
        ((db.filter (expired_matches now)).map (fun v => v.telegram_id)) :=
      List.mem_map.mpr ⟨u, hu, rfl⟩
    exact List.mem_map.mpr ⟨u, hmem, by simp [get_expired_users, if_pos hid]⟩
  · intro u hu hni
    refine List.mem_map.mpr ⟨u, hu, ?_⟩
    simp only [get_expired_users] at hni ⊢
    rw [if_neg hni]

/-- Witness for C1 amended: the expired GRACE row is indeed selected by the
sweep on the concrete table. -/
theorem expired_sweep_amended_witness :
    graceExpiredUser ∈ (get_expired_users expiredDb 10).returned :=
  ((expired_sweep_amended expiredDb 10).1 graceExpiredUser).mpr (by decide)

/-! ## C6: the Advance-to-Grace sweep -/

/-- C6 counterexample: a row whose `subscription_end` sits exactly at
`now + horizon` is selected and marked GRACE by the handler (SQL BETWEEN is
inclusive), while the spec's half-open window `[now, now+horizon)` matches
no row of the same table. -/
theorem grace_boundary_counterexample :
    (get_expiring_users boundaryDb 0 5).returned.map (fun u => u.telegram_id) = [1]
    ∧ boundaryDb.filter (grace_matches_spec 0 5) = []
    ∧ (get_expiring_users boundaryDb 0 5).db.map (fun u => u.is_active) = [2] := by
  decide

/-- C6 amended: the sweep selects exactly the rows with status ACTIVE and
`subscription_end` in the closed window `[now, now+horizon]`, marks exactly
those GRACE leaving the others untouched, returns them — and an immediately
repeated call on the resulting table with the same `now` selects nothing. -/
theorem grace_sweep_amended (db : List User) (now horizon : Int) :
    (∀ u, u ∈ (get_expiring_users db now horizon).returned ↔
        u ∈ db ∧ u.is_active = 1 ∧ now ≤ u.subscription_end
          ∧ u.subscription_end ≤ now + horizon)
    ∧ (∀ u ∈ (get_expiring_users db now horizon).returned,
        { u with is_active := 2 } ∈ (get_expiring_users db now horizon).db)
    ∧ (∀ u ∈ db,
        u.telegram_id ∉ (get_expiring_users db now horizon).returned.map (fun v => v.telegram_id) →
        u ∈ (get_expiring_users db now horizon).db)
    ∧ (get_expiring_users (get_expiring_users db now horizon).db now horizon).returned = [] := by
  refine ⟨?_, ?_, ?_, ?_⟩
  · intro u
    simp [get_expiring_users, grace_matches, List.mem_filter, and_assoc]
  · intro u hu
    have hmem : u ∈ db := List.mem_of_mem_filter hu
    have hid : u.telegram_id ∈
        ((db.filter (grace_matches now (now + horizon))).map (fun v => v.telegram_id)) :=
      List.mem_map.mpr ⟨u, hu, rfl⟩
    exact List.mem_map.mpr ⟨u, hmem, by simp [get_expiring_users, if_pos hid]⟩
  · intro u hu hni
    refine List.mem_map.mpr ⟨u, hu, ?_⟩
    simp only [get_expiring_users] at hni ⊢
    rw [if_neg hni]
  · show List.filter _ (List.map _ _) = []
    rw [List.filter_eq_nil_iff]
    intro a ha
    obtain ⟨u, hu, rfl⟩ := List.mem_map.mp ha
    by_cases hid : u.telegram_id ∈
        ((db.filter (grace_matches now (now + horizon))).map (fun v => v.telegram_id))
    · rw [if_pos hid]
      simp [grace_matches]
    · rw [if_neg hid]
      intro hP
      exact hid (List.mem_map.mpr ⟨u, List.mem_filter.mpr ⟨hu, hP⟩, rfl⟩)

/-- Witness for C6 amended: on the concrete boundary table, the immediately
repeated sweep returns the empty set. -/
theorem grace_sweep_amended_witness :
    (get_expiring_users (get_expiring_users boundaryDb 0 5).db 0 5).returned = [] :=
  (grace_sweep_amended boundaryDb 0 5).2.2.2

/-! ## C8, C9: the referral graph -/

/-- Shared helper: a pointwise table update that keeps every key leaves the
result of a key lookup equal to the updated original hit. -/
theorem findUser_map (db : List User) (f : User → User)
    (hf : ∀ u, (f u).telegram_id = u.telegram_id) (t : Int) :
    findUser (db.map f) t = (findUser db t).map f := by
  induction db with
  | nil => rfl
  | cons u l ih =>
    simp only [findUser, List.map_cons] at ih ⊢
    rw [List.find?_cons, List.find?_cons, hf]
    cases h : (u.telegram_id == t) with
    | true => rfl
    | false => exact ih

/-- Shared helper: a pointwise table update that keeps every key and does not
touch the `referral_id` of rows keyed `c` leaves the parent pointer of `c`
unchanged. -/
theorem parentOf_map_untouched (db : List User) (f : User → User) (c : Int)
    (hf : ∀ u, (f u).telegram_id = u.telegram_id)
    (hr : ∀ u, u.telegram_id = c → (f u).referral_id = u.referral_id) :
    parentOf (db.map f) c = parentOf db c := by
  unfold parentOf
  rw [findUser_map db f hf c]
  cases h : findUser db c with
  | none => rfl
  | some u =>
    simp only [Option.map_some', Option.some_bind]
    apply hr
    have hp := List.find?_some h
    simpa using hp

/-- Shared helper: one AddReferral call never changes an already-set parent
pointer. -/
theorem parentOf_add_referral (db : List User) (a b c p : Int)
    (h : parentOf db c = some p) :
    parentOf (add_referral db a b).2 c = some p := by
  unfold add_referral
  cases hb : findUser db b with
  | none => simpa using h
  | some cu =>
    by_cases hs : cu.referral_id.isSome = true
    · simp only [hs, if_true]
      exact h
    · simp only [hs, if_false, Bool.false_eq_true]
      cases ha : findUser db a with
      | none => exact h
      | some pu =>
        by_cases hm : b ∈ pu.referrals.getD []
        · simp only [if_pos hm]
          exact h
        · simp only [if_neg hm]
          have hcb : c ≠ b := by
            intro he
            rw [he, parentOf, hb] at h
            simp only [Option.some_bind] at h
            rw [h] at hs
            simp at hs
          show parentOf (setReferralId (appendReferral db a b) b a) c = some p
          rw [setReferralId]
          rw [parentOf_map_untouched]
          · rw [appendReferral]
            rw [parentOf_map_untouched]
            · exact h
            · intro u; split_ifs <;> rfl
            · intro u _; split_ifs <;> rfl
          · intro u; split_ifs <;> rfl
          · intro u hc
            have hub : ¬ u.telegram_id = b := by rw [hc]; exact hcb
            rw [if_neg hub]

/-- C9 amended: across every sequence of AddReferral calls, an account whose
parent pointer is already set keeps it unchanged — `referral_id` is written
at most once and is immutable, so every node has at most one parent.  (The
forest part of the claim fails: see the self-referral counterexample.) -/
theorem referral_parent_immutable (db : List User) (ops : List (Int × Int)) (c p : Int)
    (h : parentOf db c = some p) :
    parentOf (applyReferralOps db ops) c = some p := by
  induction ops generalizing db with
  | nil => simpa [applyReferralOps] using h
  | cons op rest ih =>
    simp only [applyReferralOps, List.foldl_cons]
    exact ih _ (parentOf_add_referral db op.1 op.2 c p h)

/-- Witness for C9 amended: an account with parent 7 keeps parent 7 after a
further AddReferral call. -/
theorem referral_parent_immutable_witness :
    parentOf (applyReferralOps parentedDb [(5, 9)]) 1 = some 7 :=
  referral_parent_immutable parentedDb [(5, 9)] 1 7 (by decide)

/-- C9 counterexample: AddReferral accepts a self-referral — on a table with
one fresh account, `add_referral db 1 1` succeeds and leaves account 1 as its
own parent, a cycle, so the referral graph is not a forest. -/
theorem self_referral_cycle_counterexample :
    (add_referral loneDb 1 1).1 = .ok "Referral added successfully and referral_id updated"
    ∧ parentOf (add_referral loneDb 1 1).2 1 = some 1 := by
  decide

/-- C8 amended: both AddReferral rejection paths — child already invited, and
child already present in the parent's referral array — return BadRequest
(HTTP 400, not Conflict) and leave the table unchanged. -/
theorem add_referral_rejections (db : List User) (a b : Int) (cu : User)
    (hb : findUser db b = some cu) :
    (cu.referral_id.isSome = true →
      add_referral db a b
        = (.badRequest "This user has already been invited by someone else", db))
    ∧ (∀ pu, cu.referral_id = none → findUser db a = some pu →
        b ∈ pu.referrals.getD [] →
        add_referral db a b = (.badRequest "This referral is already added", db)) := by
  constructor
  · intro hs
    simp [add_referral, hb, hs]
  · intro pu hn ha hm
    simp [add_referral, hb, hn, ha, hm]

/-- Witness for C8 amended: the concrete already-invited account is rejected
with BadRequest and an unchanged table. -/
theorem add_referral_rejections_witness :
    add_referral invitedDb 10 20
      = (.badRequest "This user has already been invited by someone else", invitedDb) :=
  (add_referral_rejections invitedDb 10 20
      { userBase with telegram_id := 20, referral_id := some 99 } (by decide)).1 (by decide)

/-- C8 counterexample: the already-invited rejection is a BadRequest (HTTP
400) response, not the Conflict (409) the claim states; the table is
unchanged. -/
theorem add_referral_conflict_counterexample :
    (add_referral invitedDb 10 20).1
      = .badRequest "This user has already been invited by someone else"
    ∧ (add_referral invitedDb 10 20).1.isConflict = false
    ∧ (add_referral invitedDb 10 20).2 = invitedDb := by
  decide

/-! ## C2: the promo-use counter -/

/-- Shared helper: appending one usage row adds one to the count of its code
id and nothing to any other. -/
theorem usageCount_append_one (us : List (Int × Int)) (x y pid : Int) :
    ((us ++ [(x, y)]).filter (fun r => r.1 == pid)).length
      = (us.filter (fun r => r.1 == pid)).length + (if x = pid then 1 else 0) := by
  rw [List.filter_append, List.length_append]
  by_cases h : x = pid <;> simp [h]

/-- C2 counterexample: after creating SALE with `max_uses = 1`, two
successful Use calls by the distinct accounts 100 and 200 drive
`current_uses` to 2 — the invariant `current_uses ≤ max_uses` fails, because
`use_promo` never consults `max_uses`. -/
theorem promo_overuse_counterexample :
    saleStep1.1 = .ok "ok" ∧ saleStep2.1 = .ok "ok" ∧ ¬ promoUsesBounded saleStep2.2 := by
  refine ⟨by decide, by decide, ?_⟩
  unfold promoUsesBounded
  decide

/-- C2 amended: a successful Use appends exactly one usage row for its
`(code id, account)` pair and increments that code's `current_uses` by exactly
one, preserving the equality of each counter with its usage-row count and the
at-most-one-row-per-pair property; a duplicate pair is rejected with the
table unchanged.  No `max_uses` check takes place, so `current_uses ≤
max_uses` is not preserved. -/
theorem use_promo_amended (db : PromoDb) (code : String) (tg : Int) :
    (countsConsistent db → countsConsistent (use_promo db code tg).2)
    ∧ (db.usages.Nodup → (use_promo db code tg).2.usages.Nodup)
    ∧ (∀ p, db.codes.find? (fun q => q.code == code && q.is_active) = some p →
        ((p.id, tg) ∈ db.usages →
          use_promo db code tg = (.internalError "Failed to record promo usage", db))
        ∧ ((p.id, tg) ∉ db.usages →
          (use_promo db code tg).1 = .ok "ok"
          ∧ (use_promo db code tg).2.usages = db.usages ++ [(p.id, tg)])) := by
  refine ⟨?_, ?_, ?_⟩
  · intro hc
    cases hf : db.codes.find? (fun p => p.code == code && p.is_active) with
    | none => simp only [use_promo, hf]; exact hc
    | some p =>
      by_cases hmem : (p.id, tg) ∈ db.usages
      · simp only [use_promo, hf, if_pos hmem]; exact hc
      · simp only [use_promo, hf, if_neg hmem]
        intro q' hq'
        simp only [List.mem_map] at hq'
        obtain ⟨q, hq, rfl⟩ := hq'
        have hcount := hc q hq
        unfold usageCount at hcount ⊢
        by_cases hid : q.id = p.id
        · rw [if_pos hid]
          dsimp only
          simp only [usageCount_append_one, hid] at hcount ⊢
          rw [if_pos trivial]
          push_cast
          omega
        · rw [if_neg hid]
          dsimp only
          have hne : ¬ (p.id = q.id) := fun he => hid he.symm
          simp only [usageCount_append_one, if_neg hne, Nat.add_zero]
          exact hcount
  · intro hn
    cases hf : db.codes.find? (fun p => p.code == code && p.is_active) with
    | none => simp only [use_promo, hf]; exact hn
    | some p =>
      by_cases hmem : (p.id, tg) ∈ db.usages
      · simp only [use_promo, hf, if_pos hmem]; exact hn
      · simp only [use_promo, hf, if_neg hmem]
        simp only [List.nodup_append, List.nodup_cons, List.not_mem_nil, not_false_iff,
          List.nodup_nil, and_true, true_and]
        refine ⟨hn, ?_⟩
        intro a ha hb
        simp only [List.mem_singleton] at hb
        exact hmem (hb ▸ ha)
  · intro p hf
    constructor
    · intro hmem
      simp [use_promo, hf, hmem]
    · intro hmem
      refine ⟨?_, ?_⟩ <;> simp [use_promo, hf, hmem]

/-- Witness for C2 amended: redeeming SALE from a fresh account succeeds and
appends the single usage row. -/
theorem use_promo_amended_witness :
    (use_promo saleDb "SALE" 100).1 = .ok "ok"
    ∧ (use_promo saleDb "SALE" 100).2.usages = saleDb.usages ++ [(1, 100)] :=
  ((use_promo_amended saleDb "SALE" 100).2.2
    { id := 1, code := "SALE", discount_percent := 10, applicable_tariffs := [],
      max_uses := 1, current_uses := 0, is_active := true } (by decide)).2 (by decide)

/-! ## C10: the swallowed usage-lookup error in Validate -/

/-- C10: when the code exists, is active, is not exhausted and applies to the
tariff, a failing storage lookup for the prior-usage row is swallowed by the
`.unwrap_or(None)` and treated as no prior usage: Validate answers valid with
the discount metadata instead of reporting an internal error. -/
theorem validate_promo_swallowed_error (db : PromoDb) (code tariff : String) (tg : Int)
    (p : PromoCode)
    (hfind : db.codes.find? (fun q => q.code == code) = some p)
    (hact : p.is_active = true)
    (hroom : p.current_uses < p.max_uses)
    (htar : tariff = "" ∨ p.applicable_tariffs.contains tariff = true) :
    validate_promo db code tariff tg false true
      = .valid p.discount_percent p.applicable_tariffs := by
  have htarF : (tariff != "" && !p.applicable_tariffs.contains tariff) = false := by
    rcases htar with he | hcon
    · simp [he]
    · have hmem : tariff ∈ p.applicable_tariffs := by simpa using hcon
      simp [hmem]
  simp only [validate_promo, hfind, hact, Bool.not_true, Bool.false_eq_true, if_false,
    htarF]
  rw [if_neg (not_le.mpr hroom)]
  simp

/-- Witness for C10: on the concrete ledger with a live code X, a failing
usage lookup still yields a valid verdict with the discount metadata. -/
theorem validate_promo_swallowed_error_witness :
    validate_promo promoXDb "X" "" 55 false true = .valid 15 ["base"] :=
  validate_promo_swallowed_error promoXDb "X" "" 55 promoX
    (by decide) (by decide) (by decide) (Or.inl rfl)

end VpnApi
